import Mathlib

/-!
Verification of the ACME Fitness Pulumi topology builder.

The source program (index.ts) is a Pulumi script that reads one
configuration object (`kubevars`) and registers a fixed set of Kubernetes
resources: five Secrets, two ConfigMaps, twelve Deployments and twelve
Services, with explicit `dependsOn` ordering edges on some of them.

This file shallow-embeds the script: each `new k8s...` call becomes a Lean
definition producing a record, and the whole module body becomes `build`,
the list of resources in registration (source) order.  Fields that no
property of interest reads (imagePullPolicy, cpu/memory requests and
limits, volumeMounts, the literal seed-script blobs of the two ConfigMaps)
are elided from the records; everything named by a property (names, labels,
selectors, ports, env mappings, secret references, volumes, dependsOn
edges, Service types and nodePorts) is carried verbatim.
-/

namespace Acme

/-- The `Data` interface of index.ts: the `kubevars` configuration object. -/
structure Data where
  isSingleNode : Bool
  dataStorePassword : String
  frontendPort : Nat
  usersPort : Nat
  catalogPort : Nat
  orderPort : Nat
  cartPort : Nat
  paymentPort : Nat
  frontendNodeport : Nat
  posNodeport : Nat
deriving DecidableEq

/-- An environment-variable value: a literal string or a
`valueFrom.secretKeyRef` reference (secret name, key). -/
inductive EnvVal where
  | lit : String → EnvVal
  | secretKeyRef : String → String → EnvVal
deriving DecidableEq

/-- One entry of a container's `env` array. -/
structure EnvVar where
  name : String
  val : EnvVal
deriving DecidableEq

/-- A pod volume source: `emptyDir` scratch space or a mounted ConfigMap
referenced by metadata name. -/
inductive VolumeSource where
  | emptyDir : VolumeSource
  | configMap : String → VolumeSource
deriving DecidableEq

/-- One entry of a pod spec's `volumes` array. -/
structure Volume where
  name : String
  source : VolumeSource
deriving DecidableEq

/-- One entry of a container's `ports` array. -/
structure ContainerPort where
  name : String
  containerPort : Nat
  protocol : Option String
deriving DecidableEq

/-- A container of a Deployment's pod template. -/
structure Container where
  name : String
  image : String
  ports : List ContainerPort
  env : List EnvVar
deriving DecidableEq

/-- A `k8s.apps.v1.Deployment` as the script constructs it.  `pulumiName`
is the first constructor argument (the Pulumi resource name); `dependsOn`
lists the Pulumi names of the resources in the `dependsOn` option. -/
structure Deployment where
  pulumiName : String
  name : String
  labels : List (String × String)
  matchLabels : List (String × String)
  templateLabels : List (String × String)
  replicas : Nat
  strategy : Option String
  containers : List Container
  volumes : List Volume
  dependsOn : List String
deriving DecidableEq

/-- One entry of a Service spec's `ports` array. -/
structure ServicePort where
  port : Nat
  name : String
  protocol : Option String
  targetPort : Option Nat
  nodePort : Option Nat
deriving DecidableEq

/-- A `k8s.core.v1.Service` as the script constructs it.  `type_ = none`
models an absent `type` field (cluster-internal default). -/
structure Service where
  pulumiName : String
  name : String
  labels : List (String × String)
  type_ : Option String
  ports : List ServicePort
  selector : List (String × String)
  dependsOn : List String
deriving DecidableEq

/-- A `k8s.core.v1.Secret` as the script constructs it. -/
structure Secret where
  pulumiName : String
  name : String
  namespace_ : String
  type_ : String
  data : List (String × String)
deriving DecidableEq

/-- A `k8s.core.v1.ConfigMap`; `dataKeys` records the keys of its `data`
map (the seed-script blob contents are elided: no property reads them). -/
structure ConfigMap where
  pulumiName : String
  name : String
  dataKeys : List String
deriving DecidableEq

/-- A node of the produced resource graph. -/
inductive Resource where
  | secret : Secret → Resource
  | configMap : ConfigMap → Resource
  | deployment : Deployment → Resource
  | service : Service → Resource
deriving DecidableEq

/-- The Pulumi resource name of a graph node. -/
def Resource.pulumiName : Resource → String
  | .secret s => s.pulumiName
  | .configMap m => m.pulumiName
  | .deployment d => d.pulumiName
  | .service s => s.pulumiName

/-- The base64 alphabet used by `Buffer.toString("base64")`. -/
def base64Chars : List Char :=
  "ABCDEFGHIJKLMNOPQRSTUVWXYZabcdefghijklmnopqrstuvwxyz0123456789+/".toList

/-- The base64 digit for a 6-bit value. -/
def b64Char (n : Nat) : Char := base64Chars.getD n '?'

/-- Standard base64 encoding of a byte list, with `=` padding, as
`Buffer.toString("base64")` produces. -/
def base64Encode : List Nat → String
  | [] => ""
  | [a] =>
    String.mk [b64Char (a / 4), b64Char (a % 4 * 16), '=', '=']
  | [a, b] =>
    String.mk [b64Char (a / 4), b64Char (a % 4 * 16 + b / 16),
      b64Char (b % 16 * 4), '=']
  | a :: b :: e :: rest =>
    String.mk [b64Char (a / 4), b64Char (a % 4 * 16 + b / 16),
      b64Char (b % 16 * 4 + e / 64), b64Char (e % 64)] ++ base64Encode rest

/-- The UTF-8 bytes of a string, as `Buffer.from(s)` produces. -/
def utf8Bytes (s : String) : List Nat :=
  s.data.flatMap (fun ch => (String.utf8EncodeChar ch).map (fun b => b.toNat))

/-- `toBase64` of index.ts: `Buffer.from(s).toString("base64")`. -/
def toBase64 (s : String) : String := base64Encode (utf8Bytes s)

/-- The `frontendLoadbalancerConfig` port object (isSingleNode = false). -/
def frontendLoadbalancerConfig (c : Data) : ServicePort :=
  { port := 80, name := "http-frontend", protocol := some "TCP",
    targetPort := some c.frontendPort, nodePort := none }

/-- The `frontendNodeportConfig` port object (isSingleNode = true). -/
def frontendNodeportConfig (c : Data) : ServicePort :=
  { port := 80, name := "http-frontend", protocol := some "TCP",
    targetPort := some c.frontendPort, nodePort := some c.frontendNodeport }

/-- The five datastore credential Secret names. -/
def passwords : List String :=
  ["cart-redis-pass", "catalog-mongo-pass", "order-postgres-pass",
   "users-redis-pass", "users-mongo-pass"]

/-- One Secret of the `for (let password of passwords)` loop. -/
def mkSecret (c : Data) (p : String) : Secret :=
  { pulumiName := p, name := p, namespace_ := "default", type_ := "Opaque",
    data := [("password", toBase64 c.dataStorePassword)] }

/-- The `catalog-config-map` ConfigMap (seed blob elided). -/
def catalogConfigMap : ConfigMap :=
  { pulumiName := "catalog-config-map", name := "catalog-initdb-config",
    dataKeys := ["seed.js"] }

/-- The `users-config-map` ConfigMap (seed blob elided). -/
def usersConfigMap : ConfigMap :=
  { pulumiName := "users-config-map", name := "users-initdb-config",
    dataKeys := ["seed.js"] }

/-- The `cart-redis-deployment` Deployment. -/
def cartRedisDeployment (_ : Data) : Deployment :=
  { pulumiName := "cart-redis-deployment", name := "cart-redis",
    labels := [("app", "acmefit"), ("service", "cart-redis"), ("version", "1.0.0")],
    matchLabels := [("app", "acmefit"), ("service", "cart-redis")],
    templateLabels := [("app", "acmefit"), ("service", "cart-redis")],
    replicas := 1, strategy := none,
    containers := [
      { name := "cart-redis", image := "bitnami/redis",
        ports := [{ name := "redis", containerPort := 6379, protocol := some "TCP" }],
        env := [⟨"REDIS_HOST", .lit "cart-redis"⟩,
                ⟨"REDIS_PASSWORD", .secretKeyRef "cart-redis-pass" "password"⟩] }],
    volumes := [⟨"cart-redis-data", .emptyDir⟩],
    dependsOn := [] }

/-- The `cart-deployment` Deployment. -/
def cartDeployment (c : Data) : Deployment :=
  { pulumiName := "cart-deployment", name := "cart",
    labels := [("app", "acmefit"), ("service", "cart")],
    matchLabels := [("app", "acmefit"), ("service", "cart")],
    templateLabels := [("app", "acmefit"), ("service", "cart")],
    replicas := 1, strategy := some "Recreate",
    containers := [
      { name := "cart", image := "gcr.io/vmwarecloudadvocacy/acmeshop-cart:latest",
        ports := [{ name := "cart", containerPort := c.cartPort, protocol := none }],
        env := [⟨"REDIS_HOST", .lit "cart-redis"⟩,
                ⟨"REDIS_PASSWORD", .secretKeyRef "cart-redis-pass" "password"⟩,
                ⟨"REDIS_PORT", .lit "6379"⟩,
                ⟨"CART_PORT", .lit (toString c.cartPort)⟩,
                ⟨"USER_HOST", .lit "users"⟩,
                ⟨"USER_PORT", .lit (toString c.usersPort)⟩,
                ⟨"JAEGER_AGENT_HOST", .lit "localhost"⟩,
                ⟨"JAGER_AGENT_PORT", .lit "6831"⟩,
                ⟨"AUTH_MODE", .lit "1"⟩] }],
    volumes := [⟨"acmefit-cart-data", .emptyDir⟩],
    dependsOn := [] }

/-- The `catalogmongo-deployment` Deployment; its `dependsOn` option names
`catalogConfigMap`. -/
def catalogMongoDeployment (_ : Data) : Deployment :=
  { pulumiName := "catalogmongo-deployment", name := "catalog-mongo",
    labels := [("app", "acmefit"), ("service", "catalog-db")],
    matchLabels := [("app", "acmefit"), ("service", "catalog-db")],
    templateLabels := [("app", "acmefit"), ("service", "catalog-db")],
    replicas := 1, strategy := none,
    containers := [
      { name := "catalog-mongo", image := "mongo:4",
        ports := [{ name := "catalog-mongo", containerPort := 27017, protocol := some "TCP" }],
        env := [⟨"MONGO_INITDB_ROOT_USERNAME", .lit "mongoadmin"⟩,
                ⟨"MONGO_INITDB_DATABASE", .lit "acmefit"⟩,
                ⟨"MONGO_INITDB_ROOT_PASSWORD", .secretKeyRef "catalog-mongo-pass" "password"⟩] }],
    volumes := [⟨"mongodata", .emptyDir⟩,
                ⟨"mongo-initdb", .configMap "catalog-initdb-config"⟩],
    dependsOn := ["catalog-config-map"] }

/-- The `catalog-deployment` Deployment. -/
def catalogDeployment (c : Data) : Deployment :=
  { pulumiName := "catalog-deployment", name := "catalog",
    labels := [("app", "acmefit"), ("service", "catalog")],
    matchLabels := [("app", "acmefit"), ("service", "catalog")],
    templateLabels := [("app", "acmefit"), ("service", "catalog")],
    replicas := 1, strategy := some "Recreate",
    containers := [
      { name := "catalog", image := "gcr.io/vmwarecloudadvocacy/acmeshop-catalog:latest",
        ports := [{ name := "catalog", containerPort := c.catalogPort, protocol := none }],
        env := [⟨"CATALOG_DB_HOST", .lit "catalog-mongo"⟩,
                ⟨"CATALOG_DB_PASSWORD", .secretKeyRef "catalog-mongo-pass" "password"⟩,
                ⟨"CATALOG_DB_PORT", .lit "27017"⟩,
                ⟨"CATALOG_DB_USERNAME", .lit "mongoadmin"⟩,
                ⟨"CATALOG_PORT", .lit (toString c.catalogPort)⟩,
                ⟨"CATALOG_VERSION", .lit "v1"⟩,
                ⟨"USERS_HOST", .lit "users"⟩,
                ⟨"USERS_PORT", .lit (toString c.usersPort)⟩,
                ⟨"JAEGER_AGENT_HOST", .lit "localhost"⟩,
                ⟨"JAGER_AGENT_PORT", .lit "6831"⟩] }],
    volumes := [⟨"acmefit-catalog-data", .emptyDir⟩],
    dependsOn := [] }

/-- The `payment-deployment` Deployment. -/
def paymentDeployment (c : Data) : Deployment :=
  { pulumiName := "payment-deployment", name := "payment",
    labels := [("app", "acmefit"), ("service", "payment")],
    matchLabels := [("app", "acmefit"), ("service", "payment")],
    templateLabels := [("app", "acmefit"), ("service", "payment")],
    replicas := 1, strategy := some "Recreate",
    containers := [
      { name := "payment", image := "gcr.io/vmwarecloudadvocacy/acmeshop-payment:latest",
        ports := [{ name := "payment", containerPort := c.paymentPort, protocol := none }],
        env := [⟨"PAYMENT_PORT", .lit (toString c.paymentPort)⟩,
                ⟨"USERS_HOST", .lit "users"⟩,
                ⟨"USERS_PORT", .lit (toString c.usersPort)⟩,
                ⟨"JAEGER_AGENT_HOST", .lit "localhost"⟩,
                ⟨"JAGER_AGENT_PORT", .lit "6832"⟩] }],
    volumes := [],
    dependsOn := [] }

/-- The `order-postgres-deployment` Deployment. -/
def orderPostgresDeployment (_ : Data) : Deployment :=
  { pulumiName := "order-postgres-deployment", name := "order-postgres",
    labels := [("app", "acmefit"), ("service", "order-db")],
    matchLabels := [("app", "acmefit"), ("service", "order-db")],
    templateLabels := [("app", "acmefit"), ("service", "order-db")],
    replicas := 1, strategy := none,
    containers := [
      { name := "postgres", image := "postgres:9.5",
        ports := [{ name := "order-postgres", containerPort := 5432, protocol := some "TCP" }],
        env := [⟨"POSTGRES_USER", .lit "pgbench"⟩,
                ⟨"POSTGRES_PASSWORD", .secretKeyRef "order-postgres-pass" "password"⟩,
                ⟨"PGBENCH_PASSWORD", .secretKeyRef "order-postgres-pass" "password"⟩,
                ⟨"PGDATA", .lit "/var/lib/postgresql/data/pgdata"⟩] }],
    volumes := [⟨"postgredb", .emptyDir⟩],
    dependsOn := [] }

/-- The `order-deployment` Deployment. -/
def orderDeployment (c : Data) : Deployment :=
  { pulumiName := "order-deployment", name := "order",
    labels := [("app", "acmefit"), ("service", "order")],
    matchLabels := [("app", "acmefit"), ("service", "order")],
    templateLabels := [("app", "acmefit"), ("service", "order")],
    replicas := 1, strategy := some "Recreate",
    containers := [
      { name := "order", image := "gcr.io/vmwarecloudadvocacy/acmeshop-order:latest",
        ports := [{ name := "order", containerPort := c.orderPort, protocol := none }],
        env := [⟨"ORDER_DB_HOST", .lit "order-postgres"⟩,
                ⟨"ORDER_DB_PASSWORD", .secretKeyRef "order-postgres-pass" "password"⟩,
                ⟨"ORDER_DB_PORT", .lit "5432"⟩,
                ⟨"AUTH_MODE", .lit "1"⟩,
                ⟨"ORDER_DB_USERNAME", .lit "pgbench"⟩,
                ⟨"PGPASSWORD", .secretKeyRef "order-postgres-pass" "password"⟩,
                ⟨"ORDER_AUTH_DB", .lit "postgres"⟩,
                ⟨"ORDER_PORT", .lit (toString c.orderPort)⟩,
                ⟨"PAYMENT_PORT", .lit (toString c.paymentPort)⟩,
                ⟨"PAYMENT_HOST", .lit "payment"⟩,
                ⟨"USER_HOST", .lit "users"⟩,
                ⟨"USER_PORT", .lit (toString c.usersPort)⟩,
                ⟨"JAEGER_AGENT_HOST", .lit "localhost"⟩,
                ⟨"JAGER_AGENT_PORT", .lit "6831"⟩] }],
    volumes := [⟨"acmefit-order-data", .emptyDir⟩],
    dependsOn := [] }

/-- The `usersmongo-deployment` Deployment; its `dependsOn` option names
`usersConfigMap`. -/
def usersMongoDeployment (_ : Data) : Deployment :=
  { pulumiName := "usersmongo-deployment", name := "users-mongo",
    labels := [("app", "acmefit"), ("service", "users-mongo")],
    matchLabels := [("app", "acmefit"), ("service", "users-mongo")],
    templateLabels := [("app", "acmefit"), ("service", "users-mongo")],
    replicas := 1, strategy := none,
    containers := [
      { name := "users-mongo", image := "mongo:4",
        ports := [{ name := "users-mongo", containerPort := 27017, protocol := some "TCP" }],
        env := [⟨"MONGO_INITDB_ROOT_USERNAME", .lit "mongoadmin"⟩,
                ⟨"MONGO_INITDB_DATABASE", .lit "acmefit"⟩,
                ⟨"MONGO_INITDB_ROOT_PASSWORD", .secretKeyRef "users-mongo-pass" "password"⟩] }],
    volumes := [⟨"mongodata", .emptyDir⟩,
                ⟨"mongo-initdb", .configMap "users-initdb-config"⟩],
    dependsOn := ["users-config-map"] }

/-- The `users-redis-deployment` Deployment. -/
def usersRedisDeployment (_ : Data) : Deployment :=
  { pulumiName := "users-redis-deployment", name := "users-redis",
    labels := [("app", "acmefit"), ("service", "users-redis")],
    matchLabels := [("app", "acmefit"), ("service", "users-redis")],
    templateLabels := [("app", "acmefit"), ("service", "users-redis")],
    replicas := 1, strategy := none,
    containers := [
      { name := "users-redis", image := "bitnami/redis",
        ports := [{ name := "redis", containerPort := 6379, protocol := some "TCP" }],
        env := [⟨"REDIS_HOST", .lit "users-redis"⟩,
                ⟨"REDIS_PASSWORD", .secretKeyRef "users-redis-pass" "password"⟩] }],
    volumes := [⟨"users-redis-data", .emptyDir⟩],
    dependsOn := [] }

/-- The `users-deployment` Deployment. -/
def usersDeployment (c : Data) : Deployment :=
  { pulumiName := "users-deployment", name := "users",
    labels := [("app", "acmefit"), ("service", "users")],
    matchLabels := [("app", "acmefit"), ("service", "users")],
    templateLabels := [("app", "acmefit"), ("service", "users")],
    replicas := 1, strategy := some "Recreate",
    containers := [
      { name := "users", image := "gcr.io/vmwarecloudadvocacy/acmeshop-user:latest",
        ports := [{ name := "users", containerPort := c.usersPort, protocol := none }],
        env := [⟨"USERS_DB_HOST", .lit "users-mongo"⟩,
                ⟨"USERS_DB_PASSWORD", .secretKeyRef "users-mongo-pass" "password"⟩,
                ⟨"USERS_DB_PORT", .lit "27017"⟩,
                ⟨"USERS_DB_USERNAME", .lit "mongoadmin"⟩,
                ⟨"REDIS_HOST", .lit "users-redis"⟩,
                ⟨"REDIS_PASSWORD", .secretKeyRef "users-redis-pass" "password"⟩,
                ⟨"USER_PORT", .lit (toString c.usersPort)⟩,
                ⟨"JAEGER_AGENT_HOST", .lit "localhost"⟩,
                ⟨"JAGER_AGENT_PORT", .lit "6831"⟩] }],
    volumes := [⟨"acmefit-users-data", .emptyDir⟩],
    dependsOn := [] }

/-- The `frontend-deployment` Deployment. -/
def frontendDeployment (c : Data) : Deployment :=
  { pulumiName := "frontend-deployment", name := "frontend",
    labels := [("app", "acmefit"), ("service", "frontend")],
    matchLabels := [("app", "acmefit"), ("service", "frontend")],
    templateLabels := [("app", "acmefit"), ("service", "frontend")],
    replicas := 1, strategy := some "Recreate",
    containers := [
      { name := "frontend", image := "gcr.io/vmwarecloudadvocacy/acmeshop-front-end:latest",
        ports := [{ name := "frontend", containerPort := c.frontendPort, protocol := none }],
        env := [⟨"FRONTEND_PORT", .lit (toString c.frontendPort)⟩,
                ⟨"USERS_HOST", .lit "users"⟩,
                ⟨"CATALOG_HOST", .lit "catalog"⟩,
                ⟨"ORDER_HOST", .lit "order"⟩,
                ⟨"CART_HOST", .lit "cart"⟩,
                ⟨"USERS_PORT", .lit (toString c.usersPort)⟩,
                ⟨"CATALOG_PORT", .lit (toString c.catalogPort)⟩,
                ⟨"ORDER_PORT", .lit (toString c.orderPort)⟩,
                ⟨"CART_PORT", .lit (toString c.cartPort)⟩,
                ⟨"JAEGER_AGENT_HOST", .lit "localhost"⟩,
                ⟨"JAGER_AGENT_PORT", .lit "6832"⟩] }],
    volumes := [],
    dependsOn := [] }

/-- The `pos-deployment` Deployment. -/
def posDeployment (_ : Data) : Deployment :=
  { pulumiName := "pos-deployment", name := "pos",
    labels := [("app", "acmefit"), ("service", "pos")],
    matchLabels := [("app", "acmefit"), ("service", "pos")],
    templateLabels := [("app", "acmefit"), ("service", "pos")],
    replicas := 1, strategy := some "Recreate",
    containers := [
      { name := "pos", image := "gcr.io/vmwarecloudadvocacy/acmeshop-pos:v0.1.0-beta",
        ports := [{ name := "pos", containerPort := 7777, protocol := none }],
        env := [⟨"HTTP_PORT", .lit "7777"⟩,
                ⟨"DATASTORE", .lit "remote"⟩,
                ⟨"FRONTEND_HOST", .lit "frontend.default.svc.cluster.local"⟩] }],
    volumes := [],
    dependsOn := [] }

/-- The `K8sService` interface of index.ts: one row of the `services`
table.  `dependency` is the Deployment resource the row references. -/
structure K8sService where
  name : String
  service : String
  portnumber : Nat
  portname : String
  dependency : Deployment
deriving DecidableEq

/-- The `services` array of index.ts, in source order. -/
def services (c : Data) : List K8sService :=
  [⟨"cart-redis", "cart-redis", 6379, "redis-cart", cartRedisDeployment c⟩,
   ⟨"cart", "cart", c.cartPort, "http-cart", cartDeployment c⟩,
   ⟨"catalog-mongo", "catalog-db", 27017, "mongo-catalog", catalogMongoDeployment c⟩,
   ⟨"catalog", "catalog", c.catalogPort, "http-catalog", catalogDeployment c⟩,
   ⟨"payment", "payment", c.paymentPort, "http-payment", paymentDeployment c⟩,
   ⟨"order-postgres", "order-db", 5432, "postgres-order", orderPostgresDeployment c⟩,
   ⟨"order", "order", c.orderPort, "http-order", orderDeployment c⟩,
   ⟨"users-mongo", "users-mongo", 27017, "mongo-users", usersMongoDeployment c⟩,
   ⟨"users-redis", "users-redis", 6379, "redis-users", usersRedisDeployment c⟩,
   ⟨"users", "users", c.usersPort, "http-users", usersDeployment c⟩]

/-- One Service of the `for (let service of services)` loop. -/
def serviceFor (s : K8sService) : Service :=
  { pulumiName := s.name ++ "-service", name := s.name,
    labels := [("app", "acmefit"), ("service", s.service)],
    type_ := none,
    ports := [{ port := s.portnumber, name := s.portname, protocol := some "TCP",
                targetPort := none, nodePort := none }],
    selector := [("app", "acmefit"), ("service", s.service)],
    dependsOn := [s.dependency.pulumiName] }

/-- The `frontend-service` Service: type and port entry both switch on
`kubeVars.isSingleNode`. -/
def frontendService (c : Data) : Service :=
  { pulumiName := "frontend-service", name := "frontend",
    labels := [("app", "acmefit"), ("service", "frontend")],
    type_ := some (if c.isSingleNode then "NodePort" else "LoadBalancer"),
    ports := [if c.isSingleNode then frontendNodeportConfig c else frontendLoadbalancerConfig c],
    selector := [("app", "acmefit"), ("service", "frontend")],
    dependsOn := ["frontend-deployment"] }

/-- The `pos-service` Service: always NodePort on `kubeVars.posNodeport`. -/
def posService (c : Data) : Service :=
  { pulumiName := "pos-service", name := "pos",
    labels := [("app", "acmefit"), ("service", "pos")],
    type_ := some "NodePort",
    ports := [{ port := 7777, name := "http-pos", protocol := some "TCP",
                targetPort := some 7777, nodePort := some c.posNodeport }],
    selector := [("app", "acmefit"), ("service", "pos")],
    dependsOn := ["pos-deployment"] }

/-- The whole module body of index.ts: every resource the script
registers, in source (registration) order. -/
def build (c : Data) : List Resource :=
  passwords.map (fun p => .secret (mkSecret c p))
  ++ [.configMap catalogConfigMap, .configMap usersConfigMap]
  ++ [.deployment (cartRedisDeployment c), .deployment (cartDeployment c),
      .deployment (catalogMongoDeployment c), .deployment (catalogDeployment c),
      .deployment (paymentDeployment c), .deployment (orderPostgresDeployment c),
      .deployment (orderDeployment c), .deployment (usersMongoDeployment c),
      .deployment (usersRedisDeployment c), .deployment (usersDeployment c)]
  ++ (services c).map (fun s => .service (serviceFor s))
  ++ [.deployment (frontendDeployment c), .service (frontendService c),
      .deployment (posDeployment c), .service (posService c)]

/-- Every Service of the graph paired with the Workload it fronts (the
Deployment named in its `dependsOn` option). -/
def servicePairs (c : Data) : List (Service × Deployment) :=
  (services c).map (fun s => (serviceFor s, s.dependency))
  ++ [(frontendService c, frontendDeployment c), (posService c, posDeployment c)]

/-- The Secrets of a resource list, in order. -/
def secretsOf (rs : List Resource) : List Secret :=
  rs.filterMap fun r => match r with | .secret s => some s | _ => none

/-- The ConfigMaps of a resource list, in order. -/
def configMapsOf (rs : List Resource) : List ConfigMap :=
  rs.filterMap fun r => match r with | .configMap m => some m | _ => none

/-- The Deployments of a resource list, in order. -/
def deploymentsOf (rs : List Resource) : List Deployment :=
  rs.filterMap fun r => match r with | .deployment d => some d | _ => none

/-- The Services of a resource list, in order. -/
def servicesOf (rs : List Resource) : List Service :=
  rs.filterMap fun r => match r with | .service s => some s | _ => none

/-- The secret names a Deployment's environment mapping references via
`secretKeyRef`. -/
def envSecretRefs (d : Deployment) : List String :=
  d.containers.flatMap fun ct =>
    ct.env.filterMap fun e => match e.val with
      | .secretKeyRef n _ => some n
      | .lit _ => none

/-- The ConfigMap metadata names a Deployment mounts through its volumes. -/
def volumeConfigMaps (d : Deployment) : List String :=
  d.volumes.filterMap fun v => match v.source with
    | .configMap n => some n
    | .emptyDir => none

/-- First index of a string in a list. -/
def idx? : List String → String → Option Nat
  | [], _ => none
  | a :: rest, s => if a = s then some 0 else (idx? rest s).map (· + 1)

/-- The Pulumi names of the graph, in registration order. -/
def graphNames (c : Data) : List String := (build c).map Resource.pulumiName

/-- `emittedBefore c a b`: resource `a` is registered before resource `b`
in the graph of `c` (both present). -/
def emittedBefore (c : Data) (a b : String) : Bool :=
  match idx? (graphNames c) a, idx? (graphNames c) b with
  | some i, some j => Nat.blt i j
  | _, _ => false

/-- The containerPort of the first port of the first container. -/
def deploymentContainerPort? (d : Deployment) : Option Nat :=
  (d.containers.head?.bind fun ct => ct.ports.head?).map (fun p => p.containerPort)

/-- The `port` of the first port entry of a Service. -/
def servicePort? (s : Service) : Option Nat :=
  s.ports.head?.map (fun p => p.port)

/-- The `targetPort` of the first port entry of a Service. -/
def serviceTargetPort? (s : Service) : Option Nat :=
  s.ports.head?.bind (fun p => p.targetPort)

/-- The `nodePort` of the first port entry of a Service. -/
def serviceNodePort? (s : Service) : Option Nat :=
  s.ports.head?.bind (fun p => p.nodePort)

/-- The `Pulumi.dev.yaml` configuration shipped with the repository. -/
def defaultData : Data :=
  { isSingleNode := true, dataStorePassword := "helloworld",
    frontendPort := 3000, usersPort := 8083, catalogPort := 8082,
    orderPort := 6000, cartPort := 5000, paymentPort := 9000,
    frontendNodeport := 30430, posNodeport := 30431 }

/-- The `kubevars` object as the JavaScript runtime sees it:
`config.requireObject<Data>("kubevars")` checks only that the `kubevars`
key itself is set — TypeScript field types are erased at runtime, so an
individual field may be absent and then reads as `undefined`. -/
structure OptData where
  isSingleNode : Option Bool
  dataStorePassword : Option String
  frontendPort : Option Nat
  usersPort : Option Nat
  catalogPort : Option Nat
  orderPort : Option Nat
  cartPort : Option Nat
  paymentPort : Option Nat
  frontendNodeport : Option Nat
  posNodeport : Option Nat
deriving DecidableEq

/-- A fully populated `kubevars` object. -/
def optOf (c : Data) : OptData :=
  { isSingleNode := some c.isSingleNode,
    dataStorePassword := some c.dataStorePassword,
    frontendPort := some c.frontendPort, usersPort := some c.usersPort,
    catalogPort := some c.catalogPort, orderPort := some c.orderPort,
    cartPort := some c.cartPort, paymentPort := some c.paymentPort,
    frontendNodeport := some c.frontendNodeport,
    posNodeport := some c.posNodeport }

/-- JavaScript: `.toString()` on an absent (undefined) numeric field
throws a TypeError. -/
def reqToString : Option Nat → Except String String
  | some n => .ok (toString n)
  | none => .error "TypeError"

/-- JavaScript: `Buffer.from(undefined)` throws a TypeError. -/
def reqBase64 : Option String → Except String String
  | some s => .ok (toBase64 s)
  | none => .error "TypeError"

/-- The resource registrations of index.ts in source order: each step
pairs the resource's Pulumi name with the evaluation of its constructor
arguments, which can throw.  Only `.toString()` on an absent numeric
field and `Buffer.from` of an absent string throw; an absent number used
as a raw value (containerPort, Service port, nodePort) and an absent
boolean used as a condition (`kubeVars.isSingleNode ? ... : ...` is
simply falsy) do not throw.  Env entries are evaluated in array order
within each registration. -/
def steps (d : OptData) : List (String × Except String Unit) :=
  passwords.map (fun p => (p, do let _ ← reqBase64 d.dataStorePassword; pure ()))
  ++ [("catalog-config-map", .ok ()), ("users-config-map", .ok ()),
      ("cart-redis-deployment", .ok ()),
      ("cart-deployment", do
        let _ ← reqToString d.cartPort
        let _ ← reqToString d.usersPort
        pure ()),
      ("catalogmongo-deployment", .ok ()),
      ("catalog-deployment", do
        let _ ← reqToString d.catalogPort
        let _ ← reqToString d.usersPort
        pure ()),
      ("payment-deployment", do
        let _ ← reqToString d.paymentPort
        let _ ← reqToString d.usersPort
        pure ()),
      ("order-postgres-deployment", .ok ()),
      ("order-deployment", do
        let _ ← reqToString d.orderPort
        let _ ← reqToString d.paymentPort
        let _ ← reqToString d.usersPort
        pure ()),
      ("usersmongo-deployment", .ok ()),
      ("users-redis-deployment", .ok ()),
      ("users-deployment", do let _ ← reqToString d.usersPort; pure ())]
  ++ ["cart-redis-service", "cart-service", "catalog-mongo-service",
      "catalog-service", "payment-service", "order-postgres-service",
      "order-service", "users-mongo-service", "users-redis-service",
      "users-service"].map (fun n => (n, Except.ok ()))
  ++ [("frontend-deployment", do
        let _ ← reqToString d.frontendPort
        let _ ← reqToString d.usersPort
        let _ ← reqToString d.catalogPort
        let _ ← reqToString d.orderPort
        let _ ← reqToString d.cartPort
        pure ()),
      ("frontend-service", .ok ()),
      ("pos-deployment", .ok ()),
      ("pos-service", .ok ())]

/-- Run registrations in order; a throw aborts the module, keeping the
resources registered so far. -/
def runSteps : List (String × Except String Unit) → List String × Option String
  | [] => ([], none)
  | (n, .ok _) :: rest =>
    let r := runSteps rest
    (n :: r.1, r.2)
  | (_, .error msg) :: _ => ([], some msg)

/-- The module-level behaviour of index.ts on a possibly incomplete
configuration: `none` models an absent `kubevars` object, on which
`config.requireObject` itself throws before any resource is registered.
Returns the Pulumi names of the resources registered, in order, and the
error that aborted the run, if any. -/
def buildOpt : Option OptData → List String × Option String
  | none => ([], some "ConfigurationError")
  | some d => runSteps (steps d)

/-- `kubevars` missing only the `isSingleNode` field. -/
def kubevarsNoSingleNode : OptData :=
  { optOf defaultData with isSingleNode := none }

/-- `kubevars` missing only the `cartPort` field. -/
def kubevarsNoCartPort : OptData :=
  { optOf defaultData with cartPort := none }

/-- `kubevars` missing only the `dataStorePassword` field. -/
def kubevarsNoPassword : OptData :=
  { optOf defaultData with dataStorePassword := none }

/-- For every Deployment of the graph and every Secret name its
environment mapping references: that Secret is in the graph, is
registered before the Deployment, and the Deployment carries no
`dependsOn` edge to it. -/
def c4check (c : Data) : Bool :=
  (deploymentsOf (build c)).all fun d =>
    (envSecretRefs d).all fun s =>
      ((secretsOf (build c)).map Secret.name).contains s
      && emittedBefore c s d.pulumiName
      && !(d.dependsOn.contains s)

/-- The encoder agrees with `Buffer.from("helloworld").toString("base64")`. -/
theorem toBase64_helloworld : toBase64 "helloworld" = "aGVsbG93b3JsZA==" := by
  decide

/-- The shipped configuration yields a 31-node resource graph. -/
theorem build_default_length : (build defaultData).length = 31 := by decide

/-- The full `build` pipeline and the registration-trace model agree on a
complete configuration: same names in the same order, no error. -/
theorem buildOpt_complete (c : Data) :
    buildOpt (some (optOf c)) = (graphNames c, none) := rfl

/-- C1: the frontend Service's exposure mode is a pure function of
`config.isSingleNode`: true gives type NodePort with
`nodePort = config.frontendNodeport`; false gives type LoadBalancer and a
port entry with no nodePort field. -/
theorem frontend_exposure_mode (c : Data) :
    (frontendService c).type_
      = some (if c.isSingleNode then "NodePort" else "LoadBalancer")
    ∧ (frontendService c).ports.map (fun p => p.nodePort)
      = [if c.isSingleNode then some c.frontendNodeport else none] := by
  refine ⟨rfl, ?_⟩
  cases h : c.isSingleNode <;>
    simp [frontendService, frontendNodeportConfig, frontendLoadbalancerConfig, h]

/-- C2: for every configuration, the point-of-sale Service has type
NodePort and its node port equals `config.posNodeport`, regardless of
`isSingleNode`. -/
theorem pos_always_nodeport (c : Data) :
    (posService c).type_ = some "NodePort"
    ∧ (posService c).ports.map (fun p => p.nodePort) = [some c.posNodeport] :=
  ⟨rfl, rfl⟩

/-- C6: the build creates exactly one Secret per the five datastore
credential names, each with the single data key `password` holding the
base64 encoding of the one shared `config.dataStorePassword`. -/
theorem secrets_five_shared_password (c : Data) :
    (secretsOf (build c)).map Secret.name = passwords
    ∧ passwords = ["cart-redis-pass", "catalog-mongo-pass",
        "order-postgres-pass", "users-redis-pass", "users-mongo-pass"]
    ∧ (secretsOf (build c)).map Secret.data
      = List.replicate 5 [("password", toBase64 c.dataStorePassword)] :=
  ⟨rfl, rfl, rfl⟩

/-- C7: every Service produced by the build has a selector exactly equal
to the label set its target Workload puts on its pod template. -/
theorem service_selectors_match (c : Data) :
    servicesOf (build c) = (servicePairs c).map Prod.fst
    ∧ (servicePairs c).map (fun p => p.1.selector)
      = (servicePairs c).map (fun p => p.2.templateLabels) :=
  ⟨rfl, rfl⟩

/-- C9: each ConfigMap-mounting datastore workload carries an explicit
`dependsOn` edge to that ConfigMap, and every Service carries an explicit
`dependsOn` edge to the workload it fronts. -/
theorem configmap_and_service_edges (c : Data) :
    configMapsOf (build c) = [catalogConfigMap, usersConfigMap]
    ∧ volumeConfigMaps (catalogMongoDeployment c) = [catalogConfigMap.name]
    ∧ (catalogMongoDeployment c).dependsOn = [catalogConfigMap.pulumiName]
    ∧ volumeConfigMaps (usersMongoDeployment c) = [usersConfigMap.name]
    ∧ (usersMongoDeployment c).dependsOn = [usersConfigMap.pulumiName]
    ∧ servicesOf (build c) = (servicePairs c).map Prod.fst
    ∧ (servicePairs c).map (fun p => p.1.dependsOn)
      = (servicePairs c).map (fun p => [p.2.pulumiName]) :=
  ⟨rfl, rfl, rfl, rfl, rfl, rfl, rfl⟩

/-- C10: in both exposure modes the frontend Service port is the constant
80 while targetPort is `config.frontendPort`; the two port objects differ
only in the presence of the nodePort field. -/
theorem frontend_port_constant (c : Data) :
    (frontendService c).ports
      = [if c.isSingleNode then frontendNodeportConfig c
         else frontendLoadbalancerConfig c]
    ∧ (frontendNodeportConfig c).port = 80
    ∧ (frontendLoadbalancerConfig c).port = 80
    ∧ (frontendNodeportConfig c).targetPort = some c.frontendPort
    ∧ (frontendLoadbalancerConfig c).targetPort = some c.frontendPort
    ∧ (frontendNodeportConfig c).name = (frontendLoadbalancerConfig c).name
    ∧ (frontendNodeportConfig c).protocol
      = (frontendLoadbalancerConfig c).protocol
    ∧ (frontendNodeportConfig c).nodePort = some c.frontendNodeport
    ∧ (frontendLoadbalancerConfig c).nodePort = none :=
  ⟨rfl, rfl, rfl, rfl, rfl, rfl, rfl, rfl, rfl⟩

/-- C3 counterexample: on the shipped configuration the frontend
container declares containerPort 3000 while the frontend Service's port
is 80, so "containerPort equals Service port for every application
workload" fails at the frontend. -/
theorem frontend_port_mismatch :
    deploymentContainerPort? (frontendDeployment defaultData) = some 3000
    ∧ servicePort? (frontendService defaultData) = some 80
    ∧ ¬ deploymentContainerPort? (frontendDeployment defaultData)
        = servicePort? (frontendService defaultData) := by decide

/-- C3 amended: for each of the ten catalog-driven workloads and for
point-of-sale, containerPort equals the fronting Service's port; for the
frontend, the Service port is the constant 80 and the containerPort
instead equals the Service's targetPort. -/
theorem container_port_eq_service_port (c : Data) :
    (services c).map (fun s => servicePort? (serviceFor s))
      = (services c).map (fun s => deploymentContainerPort? s.dependency)
    ∧ servicePort? (posService c) = deploymentContainerPort? (posDeployment c)
    ∧ servicePort? (frontendService c) = some 80
    ∧ serviceTargetPort? (frontendService c)
      = deploymentContainerPort? (frontendDeployment c) := by
  refine ⟨rfl, rfl, ?_, ?_⟩ <;>
    cases h : c.isSingleNode <;>
      simp [frontendService, frontendNodeportConfig, frontendLoadbalancerConfig,
        frontendDeployment, servicePort?, serviceTargetPort?,
        deploymentContainerPort?, h]

/-- C4 counterexample: on the shipped configuration the cart-redis
Deployment references the Secret `cart-redis-pass` in its environment,
that Secret is in the graph, yet the Deployment's `dependsOn` list is
empty: the graph holds no explicit Secret-to-workload ordering edge. -/
theorem cart_redis_no_secret_edge :
    envSecretRefs (cartRedisDeployment defaultData) = ["cart-redis-pass"]
    ∧ (secretsOf (build defaultData)).map Secret.name = passwords
    ∧ (cartRedisDeployment defaultData).dependsOn = []
    ∧ ¬ "cart-redis-pass" ∈ (cartRedisDeployment defaultData).dependsOn := by
  decide

/-- C4 amended: every Secret a workload's environment references exists
in the graph and is registered before that workload in the build's
emission order, but the graph carries no explicit `dependsOn` edge from
the Secret to the workload — ordering is left to registration order. -/
theorem secrets_precede_without_edges (c : Data) : c4check c = true := rfl

/-- C5 counterexample: a `kubevars` object missing only `isSingleNode`
is not rejected: the build completes with no error and registers all 31
resources (the absent boolean is simply falsy). -/
theorem missing_field_not_rejected :
    (buildOpt (some kubevarsNoSingleNode)).2 = none
    ∧ (buildOpt (some kubevarsNoSingleNode)).1.length = 31 := by decide

/-- C5 amended: only the absence of the whole `kubevars` object is
detected up front, aborting with a configuration error and no resources.
A missing individual field is not validated: a missing `isSingleNode` is
treated as false and all 31 resources are registered; a missing
`cartPort` throws only when first dereferenced, after 8 resources are
already registered (a partial graph); a missing `dataStorePassword`
throws at the first Secret, with no resources registered. -/
theorem config_validation_object_level :
    buildOpt none = ([], some "ConfigurationError")
    ∧ (buildOpt (some kubevarsNoSingleNode)).2 = none
    ∧ (buildOpt (some kubevarsNoSingleNode)).1 = graphNames defaultData
    ∧ buildOpt (some kubevarsNoCartPort)
      = (["cart-redis-pass", "catalog-mongo-pass", "order-postgres-pass",
          "users-redis-pass", "users-mongo-pass", "catalog-config-map",
          "users-config-map", "cart-redis-deployment"], some "TypeError")
    ∧ buildOpt (some kubevarsNoPassword) = ([], some "TypeError") := by
  decide

/-- C8: on the shipped configuration the graph has exactly 5 Secrets, 2
ConfigMaps, the 10 catalog-driven workload/Service pairs (each Service
edge-matched to its workload), 12 Deployments and 12 Services in all
(frontend and point-of-sale pairs besides the 10), frontend nodePort
30430 and point-of-sale nodePort 30431. -/
theorem default_scenario :
    (secretsOf (build defaultData)).length = 5
    ∧ (secretsOf (build defaultData)).map Secret.name = passwords
    ∧ (configMapsOf (build defaultData)).map ConfigMap.pulumiName
      = ["catalog-config-map", "users-config-map"]
    ∧ (services defaultData).length = 10
    ∧ (servicePairs defaultData).map (fun p => p.1.dependsOn)
      = (servicePairs defaultData).map (fun p => [p.2.pulumiName])
    ∧ (deploymentsOf (build defaultData)).length = 12
    ∧ (servicesOf (build defaultData)).length = 12
    ∧ (deploymentsOf (build defaultData)).map Deployment.name
      = ["cart-redis", "cart", "catalog-mongo", "catalog", "payment",
         "order-postgres", "order", "users-mongo", "users-redis", "users",
         "frontend", "pos"]
    ∧ serviceNodePort? (frontendService defaultData) = some 30430
    ∧ serviceNodePort? (posService defaultData) = some 30431 := by decide

end Acme





